import Mathlib

/-!
Verification of the DigitalOcean provisioning core of the repository:
`RestApiSession` (transport `request`, droplet lifecycle operations, the
finalizing-window retry loop in `makeCreateDropletRequest`) and the name
sanitizer `makeValidDropletName`.

The embedding is shallow: the HTTP layer is an abstract outcome (a response
with a status and a parsed body, or a transport-level exception), and each
operation of the session is a pure function of those outcomes that also
records the calls and delays it performs, so that request counts, retry
delays and request parameters can be stated exactly.
-/

namespace Orbitez

/-- Characters kept by the sanitizer: the regex class `[A-Za-z0-9-]`. -/
def isValidDropletChar (c : Char) : Bool :=
  ('A' ≤ c && c ≤ 'Z') || ('a' ≤ c && c ≤ 'z') || ('0' ≤ c && c ≤ '9') || c == '-'

/-- Sanitizer `makeValidDropletName`: `name.replace(/[^A-Za-z0-9-]/g, '')` — removes every
character outside `A-Z`, `a-z`, `0-9`, `-`; a global replace of a one-character
class by the empty string is exactly a character filter. -/
def makeValidDropletName (name : String) : String :=
  ⟨name.data.filter isValidDropletChar⟩

/-- Characters the ECMAScript builtin `encodeURI` leaves unescaped:
`uriAlpha`, `DecimalDigit`, `uriMark`, `uriReserved` and the hash sign. -/
def uriUnescaped (c : Char) : Bool :=
  ('A' ≤ c && c ≤ 'Z') || ('a' ≤ c && c ≤ 'z') || ('0' ≤ c && c ≤ '9') ||
  c == '-' || c == '_' || c == '.' || c == '!' || c == '~' || c == '*' ||
  c == Char.ofNat 39 || c == '(' || c == ')' ||
  c == ';' || c == '/' || c == '?' || c == ':' || c == '@' || c == '&' ||
  c == '=' || c == '+' || c == '$' || c == ',' || c == '#'

/-- UTF-8 byte sequence of a character, each byte as a `Nat` below 256. -/
def utf8Bytes (c : Char) : List Nat :=
  let n := c.toNat
  if n < 128 then [n]
  else if n < 2048 then [192 + n / 64, 128 + n % 64]
  else if n < 65536 then [224 + n / 4096, 128 + (n / 64) % 64, 128 + n % 64]
  else [240 + n / 262144, 128 + (n / 4096) % 64, 128 + (n / 64) % 64, 128 + n % 64]

/-- Upper-case hexadecimal digit of a value below 16. -/
def hexDigit (n : Nat) : Char :=
  if n < 10 then Char.ofNat (48 + n) else Char.ofNat (55 + n)

/-- Percent-encoding of one byte, e.g. byte 32 becomes `%20`. -/
def percentEncodeByte (b : Nat) : List Char :=
  [Char.ofNat 37, hexDigit (b / 16), hexDigit (b % 16)]

/-- Encoding of one character by `encodeURI`: kept verbatim when unescaped, otherwise each
UTF-8 byte is percent-encoded. -/
def encodeURIChar (c : Char) : List Char :=
  if uriUnescaped c then [c] else (utf8Bytes c).flatMap percentEncodeByte

/-- The ECMAScript builtin `encodeURI`, used by `getDropletsByTag`. -/
def encodeURI (s : String) : String :=
  ⟨s.data.flatMap encodeURIChar⟩

/-- Shape of `DropletInfo` (the fields the session logic can touch; the numeric size
metadata is carried opaquely and never inspected by any operation). -/
structure DropletInfo where
  id : Nat
  status : String
  tags : List String
  regionSlug : String
  ipAddresses : List (String × String)
  deriving DecidableEq, Repr

/-- Shape of `DigitalOceanDropletSpecification`. -/
structure DigitalOceanDropletSpecification where
  installCommand : String
  size : String
  image : String
  tags : List String
  deriving DecidableEq, Repr

/-- Parsed JSON body of a provider response, as far as the session code looks
at it: the falsy empty body of a no-content response, the empty object, an
error object with `id` and `message` fields, and the success payloads. -/
inductive ResponseBody where
  | empty : ResponseBody
  | emptyObj : ResponseBody
  | errObj (id message : String) : ResponseBody
  | dropletObj (d : DropletInfo) : ResponseBody
  | dropletsObj (ds : List DropletInfo) : ResponseBody
  | sshKeyObj (keyId : Nat) : ResponseBody
  deriving DecidableEq, Repr

/-- JS truthiness of `response.data`: only the empty body is falsy. -/
def ResponseBody.isTruthy : ResponseBody → Bool
  | .empty => false
  | _ => true

/-- Field access `responseJson.id`: the `id` field, or the string JS prints for an
undefined property. -/
def ResponseBody.idField : ResponseBody → String
  | .errObj i _ => i
  | _ => "undefined"

/-- Field access `responseJson.message`: the `message` field, or the string JS prints for
an undefined property. -/
def ResponseBody.messageField : ResponseBody → String
  | .errObj _ m => m
  | _ => "undefined"

/-- Outcome of one HTTP exchange as the `await axios(...)` call delivers it:
either a response carrying a status and a parsed body, or a thrown
transport-level exception (DNS error, connection reset, timeout). -/
inductive HttpOutcome where
  | response (status : Nat) (data : ResponseBody) : HttpOutcome
  | transportError (e : String) : HttpOutcome
  deriving DecidableEq, Repr

/-- Errors produced by the session: `XhrError` (constructed with no message)
and plain `Error` with a message. -/
inductive ApiError where
  | xhrError : ApiError
  | error (message : String) : ApiError
  deriving DecidableEq, Repr

/-- Reading `e.message` in JS: an `Error` built with no argument has the empty
message. -/
def ApiError.message : ApiError → String
  | .xhrError => ""
  | .error m => m

/-- How a `new Promise((resolve, reject) => ...)` executor left the promise:
resolved, rejected, or — when neither callback was ever invoked — pending
forever. -/
inductive PromiseResult (α : Type) where
  | resolved (value : α) : PromiseResult α
  | rejected (e : ApiError) : PromiseResult α
  | pending : PromiseResult α
  deriving DecidableEq, Repr

/-- The transport `RestApiSession.request`: settles the promise from the HTTP outcome.
A 2xx response resolves with the parsed body, or with the empty object when
the body is falsy; a 401 rejects with `XhrError`; any other status rejects
with an `Error` interpolating the body's `id` and `message` fields.
A thrown transport error reaches `catch (e) { console.log(e) }`, which calls
neither `resolve` nor `reject`: the promise is left pending. -/
def request (outcome : HttpOutcome) : PromiseResult ResponseBody :=
  match outcome with
  | .transportError _ => .pending
  | .response status data =>
    if 200 ≤ status ∧ status ≤ 299 then
      .resolved (if data.isTruthy then data else .emptyObj)
    else if status = 401 then
      .rejected .xhrError
    else
      .rejected (.error ("XHR " ++ data.idField ++ " failed with " ++
        toString status ++ ": " ++ data.messageField))

/-- The absolute URL `request` targets. -/
def apiUrl (actionPath : String) : String :=
  "https://api.digitalocean.com/v2/" ++ actionPath

/-- Request body sent by the session's POST operations. -/
inductive RequestBody where
  | createDroplet (name region size image : String) (sshKeys : List Nat)
      (userData : String) (tags : List String) (ipv6 : Bool) : RequestBody
  | registerKey (name publicKey : String) : RequestBody
  deriving DecidableEq, Repr

/-- One call to `request`: method, action path, optional JSON body. -/
structure HttpCall where
  method : String
  actionPath : String
  body : Option RequestBody
  deriving DecidableEq, Repr

/-- Observable step of the provisioning flow: an issued HTTP request or a
`setTimeout` delay. -/
inductive FlowEvent where
  | httpRequest (c : HttpCall) : FlowEvent
  | wait (ms : Nat) : FlowEvent
  deriving DecidableEq, Repr

/-- Does `hay` contain `needle` as a contiguous run? This is
`hay.indexOf(needle) >= 0` of JS strings. -/
def containsSub (needle : List Char) : List Char → Bool
  | [] => needle.isPrefixOf []
  | c :: t => needle.isPrefixOf (c :: t) || containsSub needle t

/-- The retry predicate `e.message.toLowerCase().indexOf('finalizing') >= 0`;
`toLowerCase` lower-cases character-wise. -/
def containsFinalizing (msg : String) : Bool :=
  containsSub ("finalizing").data (msg.data.map Char.toLower)

/-- Constant `MAX_REQUESTS` of `makeCreateDropletRequest`. -/
def MAX_REQUESTS : Nat := 10

/-- Constant `RETRY_TIMEOUT_MS` of `makeCreateDropletRequest`. -/
def RETRY_TIMEOUT_MS : Nat := 5000

/-- The POST issued by each droplet-creation attempt. Its body is built once
from the closure variables, so every attempt carries the same name, region,
key id and specification. -/
def createDropletCall (dropletName region : String) (keyId : Nat)
    (dropletSpec : DigitalOceanDropletSpecification) : HttpCall :=
  { method := "POST", actionPath := "droplets",
    body := some (.createDroplet dropletName region dropletSpec.size
      dropletSpec.image [keyId] dropletSpec.installCommand dropletSpec.tags true) }

/-- The POST issued by `registerKey_`. -/
def registerKeyCall (keyName publicKeyForSSH : String) : HttpCall :=
  { method := "POST", actionPath := "account/keys",
    body := some (.registerKey keyName publicKeyForSSH) }

/-- Environment of one `createDroplet` run: the HTTP outcome of the key
registration POST, and the HTTP outcome of the n-th droplet-creation POST
(n counted from 1, as `requestCount` does). -/
structure DOEnv where
  keyOutcome : HttpOutcome
  dropletAttempts : Nat → HttpOutcome

/-- The retry closure `makeRequestRecursive` of `makeCreateDropletRequest`:
increments `requestCount`, issues the creation POST, fulfills on success, and
on rejection either schedules itself again after `RETRY_TIMEOUT_MS` (when the
message contains "finalizing" case-insensitively and fewer than
`MAX_REQUESTS` requests have been made) or rejects with the error unchanged.
Returns the trace of requests and waits together with how the outer promise
settles. -/
def makeRequestRecursive (attempts : Nat → HttpOutcome) (call : HttpCall)
    (requestCount : Nat) : List FlowEvent × PromiseResult ResponseBody :=
  match request (attempts (requestCount + 1)) with
  | .resolved d => ([.httpRequest call], .resolved d)
  | .pending => ([.httpRequest call], .pending)
  | .rejected e =>
    if h : containsFinalizing e.message = true ∧ requestCount + 1 < MAX_REQUESTS then
      let rest := makeRequestRecursive attempts call (requestCount + 1)
      (.httpRequest call :: .wait RETRY_TIMEOUT_MS :: rest.1, rest.2)
    else
      ([.httpRequest call], .rejected e)
termination_by MAX_REQUESTS - requestCount
decreasing_by simp [MAX_REQUESTS] at *; omega

/-- Entry point `makeCreateDropletRequest`: starts the retry closure with
`requestCount = 0`. -/
def makeCreateDropletRequest (attempts : Nat → HttpOutcome)
    (dropletName region : String) (keyId : Nat)
    (dropletSpec : DigitalOceanDropletSpecification) :
    List FlowEvent × PromiseResult ResponseBody :=
  makeRequestRecursive attempts (createDropletCall dropletName region keyId dropletSpec) 0

/-- Extraction `.then(response => response.ssh_key.id)` of `registerKey_`: on a body
without an `ssh_key` object the chained handler faults on the property
access, which rejects the resulting promise. -/
def sshKeyIdOf : ResponseBody → Option Nat
  | .sshKeyObj keyId => some keyId
  | _ => none

/-- Chaining `.then` with an extractor that faults (JS `TypeError`) when the
field path is absent. -/
def thenExtract {α : Type} (f : ResponseBody → Option α)
    (p : PromiseResult ResponseBody) : PromiseResult α :=
  match p with
  | .resolved d =>
    match f d with
    | some v => .resolved v
    | none => .rejected (.error ("TypeError"))
  | .rejected e => .rejected e
  | .pending => .pending

/-- Operation `registerKey_`: POSTs the sanitized key name and the public key, then
extracts `response.ssh_key.id`. -/
def registerKey (keyOutcome : HttpOutcome) : PromiseResult Nat :=
  thenExtract sshKeyIdOf (request keyOutcome)

/-- Operation `createDroplet`: sanitizes the display name, registers the SSH key once,
and on success hands the key id to `makeCreateDropletRequest`; a key
registration failure (or a pending key request) short-circuits the flow. -/
def createDroplet (env : DOEnv) (displayName region publicKeyForSSH : String)
    (dropletSpec : DigitalOceanDropletSpecification) :
    List FlowEvent × PromiseResult ResponseBody :=
  let dropletName := makeValidDropletName displayName
  let keyEvent := FlowEvent.httpRequest (registerKeyCall dropletName publicKeyForSSH)
  match registerKey env.keyOutcome with
  | .resolved keyId =>
    let rest := makeCreateDropletRequest env.dropletAttempts dropletName region keyId dropletSpec
    (keyEvent :: rest.1, rest.2)
  | .rejected e => ([keyEvent], .rejected e)
  | .pending => ([keyEvent], .pending)

/-- Operation `deleteDroplet`: a DELETE on `droplets/{id}` returned as-is, with no
`.then` chained — the resolved value is `request`'s own, never a parsed
field. -/
def deleteDroplet (outcome : HttpOutcome) (dropletId : Nat) :
    HttpCall × PromiseResult ResponseBody :=
  ({ method := "DELETE", actionPath := "droplets/" ++ toString dropletId, body := none },
   request outcome)

/-- Field access `response.droplets` of `getDropletsByTag`'s `.then`: a plain property
access, `none` standing for JS `undefined` when the field is absent. -/
def dropletsFieldOf : ResponseBody → Option (List DropletInfo)
  | .dropletsObj ds => some ds
  | _ => none

/-- Operation `getDropletsByTag`: GETs `droplets?tag_name={encodeURI(tag)}` and
resolves with `response.droplets`. -/
def getDropletsByTag (outcome : HttpOutcome) (tag : String) :
    HttpCall × PromiseResult (Option (List DropletInfo)) :=
  ({ method := "GET", actionPath := "droplets?tag_name=" ++ encodeURI tag, body := none },
   match request outcome with
   | .resolved d => .resolved (dropletsFieldOf d)
   | .rejected e => .rejected e
   | .pending => .pending)

/-- Specification fixture for the concrete witnesses. -/
def sampleSpec : DigitalOceanDropletSpecification :=
  { installCommand := "run-tezos-install", size := "s-1vcpu-1gb",
    image := "ubuntu-20-04-x64", tags := ["orbitez"] }

/-- Droplet fixture for the concrete witnesses. -/
def sampleDroplet : DropletInfo :=
  { id := 42, status := "new", tags := ["orbitez"], regionSlug := "nyc3",
    ipAddresses := [] }

/-- Environment whose first three creation attempts hit the finalizing window
and whose fourth succeeds. -/
def envRetry4 : DOEnv :=
  { keyOutcome := .response 201 (.sshKeyObj 7),
    dropletAttempts := fun n =>
      if n < 4 then .response 422 (.errObj ("account_pending") ("Account is Finalizing"))
      else .response 202 (.dropletObj sampleDroplet) }

/-- Environment whose creation attempts all hit the finalizing window. -/
def envAlwaysFinalizing : DOEnv :=
  { keyOutcome := .response 201 (.sshKeyObj 7),
    dropletAttempts := fun _ => .response 422 (.errObj ("account_pending") ("Account is Finalizing")) }

/-- Environment whose first creation attempt fails with an unrelated error. -/
def envQuota : DOEnv :=
  { keyOutcome := .response 201 (.sshKeyObj 7),
    dropletAttempts := fun _ => .response 403 (.errObj ("forbidden") ("quota exceeded")) }

/-- Environment whose key registration request comes back 401. -/
def envKeyRejected : DOEnv :=
  { keyOutcome := .response 401 .empty,
    dropletAttempts := fun _ => .response 202 (.dropletObj sampleDroplet) }

/-- Environment whose first creation attempt succeeds immediately. -/
def envImmediate : DOEnv :=
  { keyOutcome := .response 201 (.sshKeyObj 7),
    dropletAttempts := fun _ => .response 202 (.dropletObj sampleDroplet) }

/-- A list is a prefix of itself followed by anything. -/
theorem isPrefixOf_self_append (n b : List Char) : n.isPrefixOf (n ++ b) = true := by
  induction n with
  | nil => simp [List.isPrefixOf]
  | cons c t ih => simp [List.isPrefixOf, ih]

/-- A prefix is in particular a contained run. -/
theorem containsSub_of_isPrefixOf {n hay : List Char}
    (hp : n.isPrefixOf hay = true) : containsSub n hay = true := by
  cases hay with
  | nil => simpa [containsSub] using hp
  | cons c t => simp [containsSub, hp]

/-- Lemma: a contained run is still contained after prepending. -/
theorem containsSub_append_left (n a t : List Char)
    (ht : containsSub n t = true) : containsSub n (a ++ t) = true := by
  induction a with
  | nil => simp only [List.nil_append]; exact ht
  | cons c r ih => simp [containsSub, ih]

/-- Every list contains itself as a run. -/
theorem containsSub_self (n : List Char) : containsSub n n = true :=
  containsSub_of_isPrefixOf
    (by have h := isPrefixOf_self_append n []; rwa [List.append_nil] at h)

/-- Claim C1, evaluated against the code: when the HTTP layer throws a
transport-level failure (DNS error, connection reset, timeout), the catch
block of `request` only logs and calls neither `resolve` nor `reject`, so the
returned promise never settles — contradicting the claim that every request
path terminates in a result or a rejected failure. -/
theorem request_transport_error_never_settles (e : String) :
    request (.transportError e) = .pending := rfl

/-- Claim C7: the sanitizer removes exactly the characters outside
`[A-Za-z0-9-]`, keeping the remaining characters in order and case (its
output is the order-preserving filter of the input, a sublist of the input
all of whose characters are valid), and the display name given as example
sanitizes as the spec says. -/
theorem makeValidDropletName_removes_exactly_invalid (s : String) :
    (makeValidDropletName s).data = s.data.filter isValidDropletChar ∧
    List.Sublist (makeValidDropletName s).data s.data ∧
    (makeValidDropletName s).data.all isValidDropletChar = true ∧
    makeValidDropletName ("My Node! #1") = "MyNode1" := by
  refine ⟨rfl, List.filter_sublist s.data, ?_, by decide⟩
  rw [List.all_eq_true]
  intro c hc
  simpa using (List.mem_filter.mp (by simpa [makeValidDropletName] using hc)).2

/-- Helper for C10: every event the retry loop puts in its trace is the one
creation request built from the closure (so all attempts carry the same,
already-sanitized droplet name) or the fixed retry delay. -/
theorem makeRequestRecursive_events (attempts : Nat → HttpOutcome) (call : HttpCall) :
    ∀ fuel count, MAX_REQUESTS - count ≤ fuel →
      ∀ ev ∈ (makeRequestRecursive attempts call count).1,
        ev = .httpRequest call ∨ ev = .wait RETRY_TIMEOUT_MS := by
  intro fuel
  induction fuel with
  | zero =>
    intro count hle ev hev
    have hcnt : ¬ (count + 1 < MAX_REQUESTS) := by
      simp only [MAX_REQUESTS] at hle ⊢
      omega
    rw [makeRequestRecursive.eq_def] at hev
    cases hreq : request (attempts (count + 1)) with
    | resolved d =>
      rw [hreq] at hev
      simp only [List.mem_singleton] at hev
      exact Or.inl hev
    | pending =>
      rw [hreq] at hev
      simp only [List.mem_singleton] at hev
      exact Or.inl hev
    | rejected e =>
      rw [hreq] at hev
      simp only [] at hev
      rw [dif_neg (fun hc => hcnt hc.2)] at hev
      simp only [List.mem_singleton] at hev
      exact Or.inl hev
  | succ f ih =>
    intro count hle ev hev
    rw [makeRequestRecursive.eq_def] at hev
    cases hreq : request (attempts (count + 1)) with
    | resolved d =>
      rw [hreq] at hev
      simp only [List.mem_singleton] at hev
      exact Or.inl hev
    | pending =>
      rw [hreq] at hev
      simp only [List.mem_singleton] at hev
      exact Or.inl hev
    | rejected e =>
      rw [hreq] at hev
      simp only [] at hev
      by_cases hc : containsFinalizing e.message = true ∧ count + 1 < MAX_REQUESTS
      · rw [dif_pos hc] at hev
        simp only [List.mem_cons] at hev
        rcases hev with h | h | h
        · exact Or.inl h
        · exact Or.inr h
        · exact ih (count + 1) (by omega) ev h
      · rw [dif_neg hc] at hev
        simp only [List.mem_singleton] at hev
        exact Or.inl hev

/-- Claim C10: sanitization is idempotent, its output consists only of
characters in `[A-Za-z0-9-]`, and the provisioning flow sends exactly the
sanitized — hence provider-valid — name in its requests: its first request
is the key registration carrying the sanitized name, and every event of its
trace is that key registration, a retry delay, or a droplet-creation request
carrying the sanitized name. -/
theorem makeValidDropletName_idempotent (s : String) :
    makeValidDropletName (makeValidDropletName s) = makeValidDropletName s ∧
    (makeValidDropletName s).data.all isValidDropletChar = true ∧
    (∀ (env : DOEnv) (region publicKeyForSSH : String)
      (dropletSpec : DigitalOceanDropletSpecification),
      (createDroplet env s region publicKeyForSSH dropletSpec).1.head? =
        some (.httpRequest (registerKeyCall (makeValidDropletName s) publicKeyForSSH))) ∧
    (∀ (env : DOEnv) (region publicKeyForSSH : String)
      (dropletSpec : DigitalOceanDropletSpecification),
      ∀ ev ∈ (createDroplet env s region publicKeyForSSH dropletSpec).1,
        ev = .httpRequest (registerKeyCall (makeValidDropletName s) publicKeyForSSH) ∨
        ev = .wait 5000 ∨
        ∃ keyId : Nat,
          ev = .httpRequest (createDropletCall (makeValidDropletName s) region keyId dropletSpec)) := by
  refine ⟨?_, ?_, ?_, ?_⟩
  · show String.mk ((s.data.filter isValidDropletChar).filter isValidDropletChar) = _
    rw [List.filter_filter]
    simp [makeValidDropletName]
  · rw [List.all_eq_true]
    intro c hc
    simpa using (List.mem_filter.mp (by simpa [makeValidDropletName] using hc)).2
  · intro env region publicKeyForSSH dropletSpec
    cases hr : registerKey env.keyOutcome <;> simp [createDroplet, hr]
  · intro env region publicKeyForSSH dropletSpec ev hev
    cases hr : registerKey env.keyOutcome with
    | resolved keyId =>
      simp only [createDroplet, hr, makeCreateDropletRequest, List.mem_cons] at hev
      rcases hev with h | h
      · exact Or.inl h
      · rcases makeRequestRecursive_events env.dropletAttempts
          (createDropletCall (makeValidDropletName s) region keyId dropletSpec)
          MAX_REQUESTS 0 (by omega) ev h with h2 | h2
        · exact Or.inr (Or.inr ⟨keyId, h2⟩)
        · exact Or.inr (Or.inl h2)
    | rejected e =>
      simp only [createDroplet, hr, List.mem_singleton] at hev
      exact Or.inl hev
    | pending =>
      simp only [createDroplet, hr, List.mem_singleton] at hev
      exact Or.inl hev

/-- Witness for C10 at a concrete environment: the droplet-creation request
present in the flow's trace carries the sanitized name. -/
theorem makeValidDropletName_idempotent_witness :
    (FlowEvent.httpRequest (createDropletCall (makeValidDropletName ("My Node! #1")) ("nyc3") 7 sampleSpec) ∈
      (createDroplet envImmediate ("My Node! #1") ("nyc3") ("ssh-rsa AAAA") sampleSpec).1) ∧
    (FlowEvent.httpRequest (createDropletCall (makeValidDropletName ("My Node! #1")) ("nyc3") 7 sampleSpec) =
        .httpRequest (registerKeyCall (makeValidDropletName ("My Node! #1")) ("ssh-rsa AAAA")) ∨
      FlowEvent.httpRequest (createDropletCall (makeValidDropletName ("My Node! #1")) ("nyc3") 7 sampleSpec) =
        .wait 5000 ∨
      ∃ keyId : Nat,
        FlowEvent.httpRequest (createDropletCall (makeValidDropletName ("My Node! #1")) ("nyc3") 7 sampleSpec) =
          .httpRequest (createDropletCall (makeValidDropletName ("My Node! #1")) ("nyc3") keyId sampleSpec)) := by
  have htr : (createDroplet envImmediate ("My Node! #1") ("nyc3") ("ssh-rsa AAAA") sampleSpec).1 =
      [.httpRequest (registerKeyCall (makeValidDropletName ("My Node! #1")) ("ssh-rsa AAAA")),
       .httpRequest (createDropletCall (makeValidDropletName ("My Node! #1")) ("nyc3") 7 sampleSpec)] := by
    have hk : registerKey envImmediate.keyOutcome = .resolved 7 := rfl
    simp only [createDroplet, hk, makeCreateDropletRequest]
    rw [makeRequestRecursive.eq_def]
    rfl
  have hmem : FlowEvent.httpRequest
      (createDropletCall (makeValidDropletName ("My Node! #1")) ("nyc3") 7 sampleSpec) ∈
      (createDroplet envImmediate ("My Node! #1") ("nyc3") ("ssh-rsa AAAA") sampleSpec).1 := by
    rw [htr]
    exact List.mem_cons_of_mem _ (List.mem_singleton.mpr rfl)
  exact ⟨hmem, (makeValidDropletName_idempotent ("My Node! #1")).2.2.2 envImmediate
    ("nyc3") ("ssh-rsa AAAA") sampleSpec _ hmem⟩

/-- Claim C8: `getDropletsByTag` issues a GET whose path carries the tag
URL-escaped by `encodeURI`, hands back the provider's filtered droplet list
unchanged, and in particular a space is transmitted percent-encoded. -/
theorem getDropletsByTag_escapes_tag (tag : String) (ds : List DropletInfo) :
    getDropletsByTag (.response 200 (.dropletsObj ds)) tag =
      ({ method := "GET", actionPath := "droplets?tag_name=" ++ encodeURI tag,
         body := none },
       .resolved (some ds)) ∧
    encodeURI ("foo bar") = "foo%20bar" :=
  ⟨rfl, by decide⟩

/-- Claim C9: when the SSH key registration fails, `createDroplet` rejects
with that failure unchanged, after the single key-registration request and
with no droplet-creation request and no retry. -/
theorem createDroplet_key_failure_propagates (env : DOEnv)
    (displayName region publicKeyForSSH : String)
    (dropletSpec : DigitalOceanDropletSpecification) (e : ApiError)
    (hkey : registerKey env.keyOutcome = .rejected e) :
    createDroplet env displayName region publicKeyForSSH dropletSpec =
      ([.httpRequest (registerKeyCall (makeValidDropletName displayName) publicKeyForSSH)],
       .rejected e) := by
  simp [createDroplet, hkey]

/-- Witness for C9 at a concrete environment: the key-registration POST comes
back 401, and the flow stops right there with that rejection. -/
theorem createDroplet_key_failure_propagates_witness :
    registerKey envKeyRejected.keyOutcome = .rejected .xhrError ∧
    createDroplet envKeyRejected ("My Node! #1") ("nyc3") ("ssh-rsa AAAA") sampleSpec =
      ([.httpRequest (registerKeyCall (makeValidDropletName ("My Node! #1")) ("ssh-rsa AAAA"))],
       .rejected .xhrError) :=
  ⟨rfl, createDroplet_key_failure_propagates envKeyRejected ("My Node! #1") ("nyc3")
    ("ssh-rsa AAAA") sampleSpec .xhrError rfl⟩

/-- Claim C5: a 401 response always rejects with the message-less `XhrError`
whatever the body, and any other non-2xx response rejects with a generic
error whose message embeds both the `id` and the `message` fields of the
provider's JSON error body. -/
theorem request_non2xx_rejections (status : Nat) (data : ResponseBody)
    (hout : ¬(200 ≤ status ∧ status ≤ 299)) :
    (status = 401 →
      request (.response status data) = .rejected .xhrError ∧
      ApiError.xhrError.message = "") ∧
    (status ≠ 401 →
      request (.response status data) =
        .rejected (.error ("XHR " ++ data.idField ++ " failed with " ++
          toString status ++ ": " ++ data.messageField)) ∧
      containsSub data.idField.data
        ("XHR " ++ data.idField ++ " failed with " ++ toString status ++ ": " ++
          data.messageField).data = true ∧
      containsSub data.messageField.data
        ("XHR " ++ data.idField ++ " failed with " ++ toString status ++ ": " ++
          data.messageField).data = true) := by
  constructor
  · intro h401
    subst h401
    exact ⟨by rw [request, if_neg hout, if_pos rfl], rfl⟩
  · intro hne
    refine ⟨by rw [request, if_neg hout, if_neg hne], ?_, ?_⟩
    · simp only [String.data_append, List.append_assoc]
      exact containsSub_append_left _ _ _
        (containsSub_of_isPrefixOf (isPrefixOf_self_append _ _))
    · simp only [String.data_append, List.append_assoc]
      exact containsSub_append_left _ _ _ (containsSub_append_left _ _ _
        (containsSub_append_left _ _ _ (containsSub_append_left _ _ _
          (containsSub_append_left _ _ _ (containsSub_self _)))))

/-- Witness for C5: status 404 with the spec's example body rejects with a
message containing both the id and the provider message, and status 401
rejects with `XhrError`. -/
theorem request_non2xx_rejections_witness :
    ¬(200 ≤ 404 ∧ 404 ≤ 299) ∧
    request (.response 404 (.errObj ("not_found") ("droplet not found"))) =
      .rejected (.error ("XHR not_found failed with 404: droplet not found")) ∧
    containsSub ("not_found").data
      ("XHR not_found failed with 404: droplet not found").data = true ∧
    containsSub ("droplet not found").data
      ("XHR not_found failed with 404: droplet not found").data = true ∧
    request (.response 401 (.errObj ("not_found") ("droplet not found"))) =
      .rejected .xhrError := by
  refine ⟨by decide, ?_, by decide, by decide, ?_⟩
  · have h := (request_non2xx_rejections 404
      (.errObj ("not_found") ("droplet not found")) (by decide)).2 (by decide)
    exact h.1
  · exact ((request_non2xx_rejections 401
      (.errObj ("not_found") ("droplet not found")) (by decide)).1 rfl).1

/-- Claim C6: every 2xx response resolves with the parsed body, an empty body
resolves with the empty object, and `deleteDroplet` on a 204 with empty body
resolves without parsing anything out of the body. -/
theorem request_2xx_resolves :
    (∀ (status : Nat) (data : ResponseBody), 200 ≤ status → status ≤ 299 →
      data ≠ ResponseBody.empty →
      request (.response status data) = .resolved data) ∧
    (∀ status : Nat, 200 ≤ status → status ≤ 299 →
      request (.response status .empty) = .resolved .emptyObj) ∧
    (∀ dropletId : Nat, deleteDroplet (.response 204 .empty) dropletId =
      ({ method := "DELETE", actionPath := "droplets/" ++ toString dropletId,
         body := none },
       .resolved .emptyObj)) := by
  refine ⟨?_, ?_, ?_⟩
  · intro status data h1 h2 hne
    rw [request, if_pos ⟨h1, h2⟩]
    cases data
    · exact absurd rfl hne
    all_goals rfl
  · intro status h1 h2
    rw [request, if_pos ⟨h1, h2⟩]
    rfl
  · intro dropletId
    rfl

/-- Witness for C6: a 201 with a key body resolves with that body, a 204 with
an empty body resolves with the empty object, and a concrete droplet
deletion resolves. -/
theorem request_2xx_resolves_witness :
    (200 ≤ 201 ∧ 201 ≤ 299 ∧ ResponseBody.sshKeyObj 7 ≠ ResponseBody.empty) ∧
    request (.response 201 (.sshKeyObj 7)) = .resolved (.sshKeyObj 7) ∧
    request (.response 204 .empty) = .resolved .emptyObj ∧
    deleteDroplet (.response 204 .empty) 42 =
      ({ method := "DELETE", actionPath := "droplets/" ++ toString 42,
         body := none },
       .resolved .emptyObj) :=
  ⟨by decide,
   request_2xx_resolves.1 201 (.sshKeyObj 7) (by decide) (by decide) (by decide),
   request_2xx_resolves.2.1 204 (by decide) (by decide),
   request_2xx_resolves.2.2 42⟩

/-- Claim C2: when the first three creation attempts are rejected with
finalizing-window messages and the fourth succeeds, the flow registers the
SSH key exactly once before the first attempt, makes exactly 4 creation
attempts with identical parameters, waits 5000 ms between consecutive
attempts, and resolves with the droplet of the 4th attempt. -/
theorem createDroplet_retries_through_finalizing (env : DOEnv)
    (displayName region publicKeyForSSH : String)
    (dropletSpec : DigitalOceanDropletSpecification) (keyId : Nat)
    (e1 e2 e3 : ApiError) (d : DropletInfo)
    (hkey : registerKey env.keyOutcome = .resolved keyId)
    (h1 : request (env.dropletAttempts 1) = .rejected e1)
    (hf1 : containsFinalizing e1.message = true)
    (h2 : request (env.dropletAttempts 2) = .rejected e2)
    (hf2 : containsFinalizing e2.message = true)
    (h3 : request (env.dropletAttempts 3) = .rejected e3)
    (hf3 : containsFinalizing e3.message = true)
    (h4 : request (env.dropletAttempts 4) = .resolved (.dropletObj d)) :
    createDroplet env displayName region publicKeyForSSH dropletSpec =
      ([.httpRequest (registerKeyCall (makeValidDropletName displayName) publicKeyForSSH),
        .httpRequest (createDropletCall (makeValidDropletName displayName) region keyId dropletSpec),
        .wait 5000,
        .httpRequest (createDropletCall (makeValidDropletName displayName) region keyId dropletSpec),
        .wait 5000,
        .httpRequest (createDropletCall (makeValidDropletName displayName) region keyId dropletSpec),
        .wait 5000,
        .httpRequest (createDropletCall (makeValidDropletName displayName) region keyId dropletSpec)],
       .resolved (.dropletObj d)) := by
  simp only [createDroplet, hkey, makeCreateDropletRequest]
  rw [makeRequestRecursive.eq_def, h1]
  simp only []
  rw [dif_pos ⟨hf1, by simp [MAX_REQUESTS]⟩]
  rw [makeRequestRecursive.eq_def, h2]
  simp only []
  rw [dif_pos ⟨hf2, by simp [MAX_REQUESTS]⟩]
  rw [makeRequestRecursive.eq_def, h3]
  simp only []
  rw [dif_pos ⟨hf3, by simp [MAX_REQUESTS]⟩]
  rw [makeRequestRecursive.eq_def, h4]
  rfl

/-- Witness for C2 at a concrete environment: three 422 finalizing rejections
followed by a successful creation. -/
theorem createDroplet_retries_through_finalizing_witness :
    registerKey envRetry4.keyOutcome = .resolved 7 ∧
    request (envRetry4.dropletAttempts 1) =
      .rejected (.error ("XHR account_pending failed with 422: Account is Finalizing")) ∧
    containsFinalizing
      (ApiError.error ("XHR account_pending failed with 422: Account is Finalizing")).message = true ∧
    request (envRetry4.dropletAttempts 4) = .resolved (.dropletObj sampleDroplet) ∧
    createDroplet envRetry4 ("My Node! #1") ("nyc3") ("ssh-rsa AAAA") sampleSpec =
      ([.httpRequest (registerKeyCall (makeValidDropletName ("My Node! #1")) ("ssh-rsa AAAA")),
        .httpRequest (createDropletCall (makeValidDropletName ("My Node! #1")) ("nyc3") 7 sampleSpec),
        .wait 5000,
        .httpRequest (createDropletCall (makeValidDropletName ("My Node! #1")) ("nyc3") 7 sampleSpec),
        .wait 5000,
        .httpRequest (createDropletCall (makeValidDropletName ("My Node! #1")) ("nyc3") 7 sampleSpec),
        .wait 5000,
        .httpRequest (createDropletCall (makeValidDropletName ("My Node! #1")) ("nyc3") 7 sampleSpec)],
       .resolved (.dropletObj sampleDroplet)) :=
  ⟨rfl, rfl, by decide, rfl,
   createDroplet_retries_through_finalizing envRetry4 ("My Node! #1") ("nyc3")
     ("ssh-rsa AAAA") sampleSpec 7
     (.error ("XHR account_pending failed with 422: Account is Finalizing"))
     (.error ("XHR account_pending failed with 422: Account is Finalizing"))
     (.error ("XHR account_pending failed with 422: Account is Finalizing"))
     sampleDroplet rfl rfl (by decide) rfl (by decide) rfl (by decide) rfl⟩

/-- Claim C4: when the first creation attempt is rejected with a message not
containing the finalizing marker, the flow rejects immediately after exactly
one creation attempt, with no delay, no further requests, and the failure
propagated unchanged. -/
theorem createDroplet_nonfinalizing_rejects_immediately (env : DOEnv)
    (displayName region publicKeyForSSH : String)
    (dropletSpec : DigitalOceanDropletSpecification) (keyId : Nat) (e : ApiError)
    (hkey : registerKey env.keyOutcome = .resolved keyId)
    (h1 : request (env.dropletAttempts 1) = .rejected e)
    (hnf : containsFinalizing e.message = false) :
    createDroplet env displayName region publicKeyForSSH dropletSpec =
      ([.httpRequest (registerKeyCall (makeValidDropletName displayName) publicKeyForSSH),
        .httpRequest (createDropletCall (makeValidDropletName displayName) region keyId dropletSpec)],
       .rejected e) := by
  simp only [createDroplet, hkey, makeCreateDropletRequest]
  rw [makeRequestRecursive.eq_def, h1]
  simp only []
  rw [dif_neg (by simp [hnf])]

/-- Witness for C4 at a concrete environment: a 403 quota error on the first
attempt stops the flow at once. -/
theorem createDroplet_nonfinalizing_rejects_immediately_witness :
    registerKey envQuota.keyOutcome = .resolved 7 ∧
    request (envQuota.dropletAttempts 1) =
      .rejected (.error ("XHR forbidden failed with 403: quota exceeded")) ∧
    containsFinalizing
      (ApiError.error ("XHR forbidden failed with 403: quota exceeded")).message = false ∧
    createDroplet envQuota ("My Node! #1") ("nyc3") ("ssh-rsa AAAA") sampleSpec =
      ([.httpRequest (registerKeyCall (makeValidDropletName ("My Node! #1")) ("ssh-rsa AAAA")),
        .httpRequest (createDropletCall (makeValidDropletName ("My Node! #1")) ("nyc3") 7 sampleSpec)],
       .rejected (.error ("XHR forbidden failed with 403: quota exceeded"))) :=
  ⟨rfl, rfl, by decide,
   createDroplet_nonfinalizing_rejects_immediately envQuota ("My Node! #1") ("nyc3")
     ("ssh-rsa AAAA") sampleSpec 7
     (.error ("XHR forbidden failed with 403: quota exceeded")) rfl rfl (by decide)⟩

/-- Claim C3: when every creation attempt is rejected with a finalizing
message, the flow makes exactly 10 creation attempts — never an 11th — and
then rejects with the 10th attempt's failure unchanged. -/
theorem createDroplet_finalizing_exhausted (env : DOEnv)
    (displayName region publicKeyForSSH : String)
    (dropletSpec : DigitalOceanDropletSpecification) (keyId : Nat)
    (e : Nat → ApiError)
    (hkey : registerKey env.keyOutcome = .resolved keyId)
    (hfail : ∀ i : Fin 10,
      request (env.dropletAttempts (i.val + 1)) = .rejected (e (i.val + 1)))
    (hfin : ∀ i : Fin 10, containsFinalizing (e (i.val + 1)).message = true) :
    createDroplet env displayName region publicKeyForSSH dropletSpec =
      ([.httpRequest (registerKeyCall (makeValidDropletName displayName) publicKeyForSSH),
        .httpRequest (createDropletCall (makeValidDropletName displayName) region keyId dropletSpec),
        .wait 5000,
        .httpRequest (createDropletCall (makeValidDropletName displayName) region keyId dropletSpec),
        .wait 5000,
        .httpRequest (createDropletCall (makeValidDropletName displayName) region keyId dropletSpec),
        .wait 5000,
        .httpRequest (createDropletCall (makeValidDropletName displayName) region keyId dropletSpec),
        .wait 5000,
        .httpRequest (createDropletCall (makeValidDropletName displayName) region keyId dropletSpec),
        .wait 5000,
        .httpRequest (createDropletCall (makeValidDropletName displayName) region keyId dropletSpec),
        .wait 5000,
        .httpRequest (createDropletCall (makeValidDropletName displayName) region keyId dropletSpec),
        .wait 5000,
        .httpRequest (createDropletCall (makeValidDropletName displayName) region keyId dropletSpec),
        .wait 5000,
        .httpRequest (createDropletCall (makeValidDropletName displayName) region keyId dropletSpec),
        .wait 5000,
        .httpRequest (createDropletCall (makeValidDropletName displayName) region keyId dropletSpec)],
       .rejected (e 10)) := by
  simp only [createDroplet, hkey, makeCreateDropletRequest]
  rw [makeRequestRecursive.eq_def, hfail ⟨0, by omega⟩]
  simp only []
  rw [dif_pos ⟨hfin ⟨0, by omega⟩, by simp [MAX_REQUESTS]⟩]
  rw [makeRequestRecursive.eq_def, hfail ⟨1, by omega⟩]
  simp only []
  rw [dif_pos ⟨hfin ⟨1, by omega⟩, by simp [MAX_REQUESTS]⟩]
  rw [makeRequestRecursive.eq_def, hfail ⟨2, by omega⟩]
  simp only []
  rw [dif_pos ⟨hfin ⟨2, by omega⟩, by simp [MAX_REQUESTS]⟩]
  rw [makeRequestRecursive.eq_def, hfail ⟨3, by omega⟩]
  simp only []
  rw [dif_pos ⟨hfin ⟨3, by omega⟩, by simp [MAX_REQUESTS]⟩]
  rw [makeRequestRecursive.eq_def, hfail ⟨4, by omega⟩]
  simp only []
  rw [dif_pos ⟨hfin ⟨4, by omega⟩, by simp [MAX_REQUESTS]⟩]
  rw [makeRequestRecursive.eq_def, hfail ⟨5, by omega⟩]
  simp only []
  rw [dif_pos ⟨hfin ⟨5, by omega⟩, by simp [MAX_REQUESTS]⟩]
  rw [makeRequestRecursive.eq_def, hfail ⟨6, by omega⟩]
  simp only []
  rw [dif_pos ⟨hfin ⟨6, by omega⟩, by simp [MAX_REQUESTS]⟩]
  rw [makeRequestRecursive.eq_def, hfail ⟨7, by omega⟩]
  simp only []
  rw [dif_pos ⟨hfin ⟨7, by omega⟩, by simp [MAX_REQUESTS]⟩]
  rw [makeRequestRecursive.eq_def, hfail ⟨8, by omega⟩]
  simp only []
  rw [dif_pos ⟨hfin ⟨8, by omega⟩, by simp [MAX_REQUESTS]⟩]
  rw [makeRequestRecursive.eq_def, hfail ⟨9, by omega⟩]
  simp only []
  rw [dif_neg (by simp [MAX_REQUESTS])]
  rfl

/-- Witness for C3 at a concrete environment where every attempt hits the
finalizing window: the flow stops after the 10th attempt and surfaces the
10th rejection. -/
theorem createDroplet_finalizing_exhausted_witness :
    registerKey envAlwaysFinalizing.keyOutcome = .resolved 7 ∧
    (∀ i : Fin 10, request (envAlwaysFinalizing.dropletAttempts (i.val + 1)) =
      .rejected (.error ("XHR account_pending failed with 422: Account is Finalizing"))) ∧
    (∀ _i : Fin 10, containsFinalizing
      (ApiError.error ("XHR account_pending failed with 422: Account is Finalizing")).message = true) ∧
    createDroplet envAlwaysFinalizing ("My Node! #1") ("nyc3") ("ssh-rsa AAAA") sampleSpec =
      ([.httpRequest (registerKeyCall (makeValidDropletName ("My Node! #1")) ("ssh-rsa AAAA")),
        .httpRequest (createDropletCall (makeValidDropletName ("My Node! #1")) ("nyc3") 7 sampleSpec),
        .wait 5000,
        .httpRequest (createDropletCall (makeValidDropletName ("My Node! #1")) ("nyc3") 7 sampleSpec),
        .wait 5000,
        .httpRequest (createDropletCall (makeValidDropletName ("My Node! #1")) ("nyc3") 7 sampleSpec),
        .wait 5000,
        .httpRequest (createDropletCall (makeValidDropletName ("My Node! #1")) ("nyc3") 7 sampleSpec),
        .wait 5000,
        .httpRequest (createDropletCall (makeValidDropletName ("My Node! #1")) ("nyc3") 7 sampleSpec),
        .wait 5000,
        .httpRequest (createDropletCall (makeValidDropletName ("My Node! #1")) ("nyc3") 7 sampleSpec),
        .wait 5000,
        .httpRequest (createDropletCall (makeValidDropletName ("My Node! #1")) ("nyc3") 7 sampleSpec),
        .wait 5000,
        .httpRequest (createDropletCall (makeValidDropletName ("My Node! #1")) ("nyc3") 7 sampleSpec),
        .wait 5000,
        .httpRequest (createDropletCall (makeValidDropletName ("My Node! #1")) ("nyc3") 7 sampleSpec),
        .wait 5000,
        .httpRequest (createDropletCall (makeValidDropletName ("My Node! #1")) ("nyc3") 7 sampleSpec)],
       .rejected (.error ("XHR account_pending failed with 422: Account is Finalizing"))) :=
  ⟨rfl, by decide, by decide,
   createDroplet_finalizing_exhausted envAlwaysFinalizing ("My Node! #1") ("nyc3")
     ("ssh-rsa AAAA") sampleSpec 7
     (fun _ => .error ("XHR account_pending failed with 422: Account is Finalizing"))
     rfl (by decide) (by decide)⟩

end Orbitez
